import Mathlib

/-!
Verification development for the Navigator kill-board driver
(src/hardware_drivers/navigator_kill_board/nodes/driver_node.py).

The driver is a single class KillInterface whose state we embed as a Lean
structure.  Serial I/O is made explicit: serialIn is the list of bytes
pending on the inbound side of the transport, serialOut is the trace of
bytes written so far, and requests additionally records the recv_str
argument each request call was given.  Byte values are Nat, timestamps are
Int (ROS time arithmetic is exact at nanosecond resolution, so an integer
time model is faithful).
-/

namespace KillBoard

/-- The per-source kill map, self.kill_status (driver_node.py line 42):
seven named boolean sources, all initialized to False. -/
structure KillStatus where
  overall : Bool
  PF : Bool
  PA : Bool
  SF : Bool
  SA : Bool
  computer : Bool
  remote : Bool
deriving DecidableEq

/-- Modelled from the spec: the alarm-bus side of AlarmBroadcaster
(package navigator_alarm, not under src/).  The spec states that raising
an already-raised alarm or clearing an already-clear one is a no-op with
no duplicate side effects, so the bus keeps a raised flag and an event
trace, and a raise or clear event is appended only when the flag actually
changes. -/
inductive AlarmEvt where
  | raiseEvt
  | clearEvt
deriving DecidableEq

/-- Modelled from the spec: alarm-bus state for one named alarm
(hw_kill), held by AlarmBroadcaster outside src/. -/
structure AlarmBus where
  raised : Bool
  events : List AlarmEvt
deriving DecidableEq

/-- Modelled from the spec: AlarmBroadcaster raise_alarm, idempotent on
an already-raised alarm. -/
def raise_alarm (b : AlarmBus) : AlarmBus :=
  if b.raised then b else { raised := true, events := b.events ++ [AlarmEvt.raiseEvt] }

/-- Modelled from the spec: AlarmBroadcaster clear_alarm, idempotent on
an already-clear alarm. -/
def clear_alarm (b : AlarmBus) : AlarmBus :=
  if b.raised then { raised := false, events := b.events ++ [AlarmEvt.clearEvt] } else b

/-- An alarm message as seen by alarm_kill_cb: the originating node name
and whether the event is a clear (alarm.clear) or a raise. -/
structure Alarm where
  node_name : String
  clear : Bool
deriving DecidableEq

/-- The mutable state of KillInterface, plus the explicit transport. -/
structure KillIState where
  serialIn : List Nat
  serialOut : List Nat
  requests : List (Nat × Option Nat)
  network_msg : Option Int
  kill_status : KillStatus
  killed : Bool
  alarmBus : AlarmBus
  current_wrencher : String
  published : List KillStatus
deriving DecidableEq

/-- self.timeout = rospy.Duration(1) (line 31). -/
def timeout : Int := 1

/-- self.true_kill (line 45): opcode byte to source name, set-true half. -/
def true_kill : List (Nat × String) :=
  [(0x10, "overall"), (0x12, "PF"), (0x14, "PA"), (0x16, "SF"),
   (0x18, "SA"), (0x1a, "remote"), (0x1c, "computer")]

/-- self.false_kill (line 46): opcode byte to source name, set-false half. -/
def false_kill : List (Nat × String) :=
  [(0x11, "overall"), (0x13, "PF"), (0x15, "PA"), (0x17, "SF"),
   (0x19, "SA"), (0x1b, "remote"), (0x1d, "computer")]

/-- Python dict membership/lookup over the opcode tables. -/
def lookup_op (tbl : List (Nat × String)) (b : Nat) : Option String :=
  (tbl.find? (fun p => p.1 == b)).map (fun p => p.2)

/-- Python dict assignment self.kill_status[src] = v, for the seven keys
that occur in the tables. -/
def set_source (ks : KillStatus) (src : String) (v : Bool) : KillStatus :=
  if src = "overall" then { ks with overall := v }
  else if src = "PF" then { ks with PF := v }
  else if src = "PA" then { ks with PA := v }
  else if src = "SF" then { ks with SF := v }
  else if src = "SA" then { ks with SA := v }
  else if src = "remote" then { ks with remote := v }
  else if src = "computer" then { ks with computer := v }
  else ks

/-- network_kill (lines 71-75): returns False when no /keep_alive message
has ever arrived, otherwise compares now - stamp against the 1-second
timeout. -/
def network_kill (s : KillIState) (now : Int) : Bool :=
  match s.network_msg with
  | none => false
  | some stamp => decide (now - stamp > timeout)

/-- set_kill (lines 88-90): set the killed flag and raise hw_kill. -/
def set_kill (s : KillIState) : KillIState :=
  { s with killed := true, alarmBus := raise_alarm s.alarmBus }

/-- set_unkill (lines 92-94): clear the killed flag and clear hw_kill. -/
def set_unkill (s : KillIState) : KillIState :=
  { s with killed := false, alarmBus := clear_alarm s.alarmBus }

/-- check_buffer (lines 96-106): read one byte; if it is a key of
true_kill set that source True, elif a key of false_kill set it False,
otherwise leave the kill map untouched.  A read on an empty buffer times
out returning the empty string, which is in neither table. -/
def check_buffer (s : KillIState) : KillIState :=
  match s.serialIn with
  | [] => s
  | b :: rest =>
    match lookup_op true_kill b with
    | some src => { s with serialIn := rest, kill_status := set_source s.kill_status src true }
    | none =>
      match lookup_op false_kill b with
      | some src => { s with serialIn := rest, kill_status := set_source s.kill_status src false }
      | none => { s with serialIn := rest }

/-- The poll loop runs check_buffer while self.ser.inWaiting() > 0
(lines 63-64); each call consumes exactly one pending byte, so draining
is n iterated calls. -/
def drainN : Nat → KillIState → KillIState
  | 0, s => s
  | n + 1, s => drainN n (check_buffer s)

/-- request (lines 108-116): writes write_str to the serial transport and
immediately returns True.  Lines 117-134 (read the response, compare with
recv_str, flush and return False on mismatch) stand after the return
statement on line 116 and are unreachable, so they do not appear in the
semantics. -/
def request (s : KillIState) (write_str : Nat) (recv_str : Option Nat) :
    KillIState × Bool :=
  ({ s with serialOut := s.serialOut ++ [write_str],
            requests := s.requests ++ [(write_str, recv_str)] }, true)

/-- rospy.get_name() for this node: init_node("kill_interface") on
line 224 resolves to this name. -/
def node_name : String := "/kill_interface"

/-- alarm_kill_cb (lines 136-146): ignore a raise that originated from
this node; otherwise send 0x45 on a raise and 0x46 on a clear. -/
def alarm_kill_cb (s : KillIState) (alarm : Alarm) : KillIState :=
  if alarm.node_name = node_name ∧ alarm.clear = false then s
  else if alarm.clear = false then (request s 0x45 none).1
  else (request s 0x46 none).1

/-- control_check (lines 148-156): map the cached wrencher string to a
mode command byte and expected ack, and send it via request. -/
def control_check (s : KillIState) : KillIState :=
  if s.current_wrencher = "autonomous" then (request s 0x42 (some 0x52)).1
  else if s.current_wrencher ∈ ["keyboard", "rc", "noop"] then (request s 0x41 (some 0x51)).1
  else (request s 0x40 (some 0x50)).1

/-- get_status (lines 158-174): publish a snapshot of the kill map, then
raise the alarm iff any of pf, pa, sf, sa, remote is true (overall and
computer deliberately excluded, per the comment on line 170). -/
def get_status (s : KillIState) : KillIState :=
  let ks := s.kill_status
  let s1 := { s with published := s.published ++ [ks] }
  if ks.PF || ks.PA || ks.SF || ks.SA || ks.remote then set_kill s1 else set_unkill s1

/-- ping (lines 214-216): send 0x20, result unchecked. -/
def ping (s : KillIState) : KillIState := (request s 0x20 none).1

/-- State after __init__ up to the poll loop (lines 27-56): empty
transport, no heartbeat yet, all seven sources False, killed False,
wrencher the empty string, followed by the initial get_status call on
line 50. -/
def initial_state : KillIState :=
  get_status
    { serialIn := [], serialOut := [], requests := [], network_msg := none,
      kill_status :=
        { overall := false, PF := false, PA := false, SF := false,
          SA := false, computer := false, remote := false },
      killed := false, alarmBus := { raised := false, events := [] },
      current_wrencher := "", published := [] }

/-- One iteration of the poll loop body (lines 58-69): get_status,
control_check, drain the inbound buffer, then ping unless network_kill. -/
def poll_cycle (s : KillIState) (now : Int) : KillIState :=
  let s1 := get_status s
  let s2 := control_check s1
  let s3 := drainN s2.serialIn.length s2
  if network_kill s3 now = false then ping s3 else s3

/-- The control-mode table as the spec states it: Autonomous maps to
0x42/0x52, any operator-in-the-loop mode (keyboard, RC, no-op) to
0x41/0x51, everything else (Idle) to 0x40/0x50. -/
def spec_mode_cmd (w : String) : Nat × Nat :=
  if w = "autonomous" then (0x42, 0x52)
  else if w ∈ ["keyboard", "rc", "noop"] then (0x41, 0x51)
  else (0x40, 0x50)

/-- The killed flag after get_status is exactly the OR of the five
physical/remote sources. -/
theorem get_status_killed (s : KillIState) :
    (get_status s).killed =
      (s.kill_status.PF || s.kill_status.PA || s.kill_status.SF ||
       s.kill_status.SA || s.kill_status.remote) := by
  unfold get_status set_kill set_unkill
  dsimp only
  split <;> simp_all

/-- The raised flag on the alarm bus after get_status matches the killed
flag. -/
theorem get_status_raised (s : KillIState) :
    (get_status s).alarmBus.raised = (get_status s).killed := by
  unfold get_status set_kill set_unkill raise_alarm clear_alarm
  dsimp only
  split <;> split <;> simp_all

/-- get_status only publishes and drives the alarm: every other field of
the state is left unchanged. -/
theorem get_status_frame (s : KillIState) :
    (get_status s).kill_status = s.kill_status ∧
    (get_status s).serialIn = s.serialIn ∧
    (get_status s).serialOut = s.serialOut ∧
    (get_status s).requests = s.requests ∧
    (get_status s).network_msg = s.network_msg ∧
    (get_status s).current_wrencher = s.current_wrencher := by
  unfold get_status set_kill set_unkill
  dsimp only
  split <;> simp

/-- check_buffer consumes at most an inbound byte and updates the kill
map: the outbound side and the cached inputs are untouched. -/
theorem check_buffer_frame (s : KillIState) :
    (check_buffer s).serialOut = s.serialOut ∧
    (check_buffer s).requests = s.requests ∧
    (check_buffer s).network_msg = s.network_msg ∧
    (check_buffer s).current_wrencher = s.current_wrencher ∧
    (check_buffer s).killed = s.killed ∧
    (check_buffer s).alarmBus = s.alarmBus ∧
    (check_buffer s).published = s.published := by
  unfold check_buffer
  rcases s.serialIn with _ | ⟨b, rest⟩ <;> simp
  rcases lookup_op true_kill b with _ | src <;> simp
  rcases lookup_op false_kill b with _ | src <;> simp

/-- Draining the buffer preserves everything check_buffer preserves. -/
theorem drainN_frame (n : Nat) (s : KillIState) :
    (drainN n s).serialOut = s.serialOut ∧
    (drainN n s).requests = s.requests ∧
    (drainN n s).network_msg = s.network_msg ∧
    (drainN n s).current_wrencher = s.current_wrencher := by
  induction n generalizing s with
  | zero => simp [drainN]
  | succ n ih =>
    have h := check_buffer_frame s
    have h2 := ih (check_buffer s)
    simp only [drainN]
    exact ⟨by rw [h2.1, h.1], by rw [h2.2.1, h.2.1],
           by rw [h2.2.2.1, h.2.2.1], by rw [h2.2.2.2, h.2.2.2.1]⟩

/-- request appends the written byte and the logged (command, expected
ack) pair, returns true, and changes nothing else. -/
theorem request_spec (s : KillIState) (w : Nat) (r : Option Nat) :
    request s w r =
      ({ s with serialOut := s.serialOut ++ [w],
                requests := s.requests ++ [(w, r)] }, true) := rfl

/-- control_check sends exactly the (command, expected ack) pair given by
spec_mode_cmd for the cached wrencher string, and changes nothing else. -/
theorem control_check_spec (s : KillIState) :
    control_check s =
      { s with serialOut := s.serialOut ++ [(spec_mode_cmd s.current_wrencher).1],
               requests := s.requests ++
                 [((spec_mode_cmd s.current_wrencher).1,
                   some (spec_mode_cmd s.current_wrencher).2)] } := by
  unfold control_check spec_mode_cmd request
  split_ifs <;> rfl

/-- Raising twice leaves the bus exactly as raising once. -/
theorem raise_alarm_idem (b : AlarmBus) :
    raise_alarm (raise_alarm b) = raise_alarm b := by
  unfold raise_alarm
  by_cases h : b.raised = true <;> simp [h]

/-- Clearing twice leaves the bus exactly as clearing once. -/
theorem clear_alarm_idem (b : AlarmBus) :
    clear_alarm (clear_alarm b) = clear_alarm b := by
  unfold clear_alarm
  by_cases h : b.raised = true <;> simp [h]

/-- A byte that is the key of no table entry looks up to none. -/
theorem lookup_op_none (tbl : List (Nat × String)) (b : Nat)
    (h : ∀ p ∈ tbl, p.1 ≠ b) : lookup_op tbl b = none := by
  unfold lookup_op
  rw [List.find?_eq_none.mpr]
  · rfl
  · intro p hp
    simpa using h p hp

/-- Claim C1: for every state of the kill map reachable by feeding any
sequence of inbound bytes through check_buffer from the initial state,
get_status raises the alarm (killed) iff at least one of PF, PA, SF, SA,
Remote is currently true, and the Overall and Computer fields never
influence that decision. -/
theorem C1_aggregate_decision (bs : List Nat) (b c : Bool) :
    ((get_status (drainN bs.length { initial_state with serialIn := bs })).killed = true ↔
      ((drainN bs.length { initial_state with serialIn := bs }).kill_status.PF = true ∨
       (drainN bs.length { initial_state with serialIn := bs }).kill_status.PA = true ∨
       (drainN bs.length { initial_state with serialIn := bs }).kill_status.SF = true ∨
       (drainN bs.length { initial_state with serialIn := bs }).kill_status.SA = true ∨
       (drainN bs.length { initial_state with serialIn := bs }).kill_status.remote = true)) ∧
    (get_status { drainN bs.length { initial_state with serialIn := bs } with
        kill_status := { (drainN bs.length { initial_state with serialIn := bs }).kill_status with
          overall := b, computer := c } }).killed
      = (get_status (drainN bs.length { initial_state with serialIn := bs })).killed := by
  constructor
  · rw [get_status_killed]
    simp [or_assoc]
  · rw [get_status_killed, get_status_killed]

/-- Claim C2: calling get_status twice with no intervening check_buffer
leaves the alarm bus exactly as after the first call: no duplicate raise
or clear event reaches the bus and the raised and killed flags are
unchanged. -/
theorem C2_evaluate_idempotent (s : KillIState) :
    (get_status (get_status s)).alarmBus = (get_status s).alarmBus ∧
    (get_status (get_status s)).killed = (get_status s).killed := by
  unfold get_status set_kill set_unkill
  dsimp only
  by_cases h : (s.kill_status.PF || s.kill_status.PA || s.kill_status.SF ||
      s.kill_status.SA || s.kill_status.remote) = true <;>
    simp [h, raise_alarm_idem, clear_alarm_idem]

/-- Claim C3, code behavior at the failing input: with control mode
autonomous and a mismatched ack byte 0x99 pending on the transport,
control_check writes 0x42 and the underlying request returns True without
reading or comparing the pending byte, so no recoverable error (False) is
ever produced and the buffers are not flushed. -/
theorem C3_no_ack_check :
    ((request { initial_state with current_wrencher := "autonomous", serialIn := [0x99] }
        0x42 (some 0x52)).2 = true) ∧
    ((request { initial_state with current_wrencher := "autonomous", serialIn := [0x99] }
        0x42 (some 0x52)).1.serialIn = [0x99]) ∧
    ((control_check { initial_state with current_wrencher := "autonomous", serialIn := [0x99] }).serialOut
        = initial_state.serialOut ++ [0x42]) := by
  refine ⟨rfl, rfl, ?_⟩
  rw [control_check_spec]
  simp [spec_mode_cmd]

/-- Claim C4 as stated is false on the code: with no heartbeat ever
received (network_msg is none in the initial state), network_kill returns
false, not true. -/
theorem C4_counterexample : network_kill initial_state 1000000 = false := rfl

/-- Claim C4 amended: if no heartbeat has ever been received, network_kill
returns false for every now, and consequently the poll loop does send a
Ping (byte 0x20) on every cycle in that condition. -/
theorem C4_no_heartbeat_not_stale (s : KillIState) (now : Int)
    (h : s.network_msg = none) :
    network_kill s now = false ∧
    ∃ l, (poll_cycle s now).serialOut = l ++ [0x20] := by
  constructor
  · simp [network_kill, h]
  · unfold poll_cycle
    dsimp only
    have h1 : (get_status s).network_msg = none := by
      rw [(get_status_frame s).2.2.2.2.1, h]
    have h2 : (control_check (get_status s)).network_msg = none := by
      rw [control_check_spec]
      exact h1
    have h3 : (drainN (control_check (get_status s)).serialIn.length
        (control_check (get_status s))).network_msg = none := by
      rw [(drainN_frame _ _).2.2.1]
      exact h2
    have h4 : network_kill (drainN (control_check (get_status s)).serialIn.length
        (control_check (get_status s))) now = false := by
      simp [network_kill, h3]
    rw [if_pos h4]
    exact ⟨(drainN (control_check (get_status s)).serialIn.length
        (control_check (get_status s))).serialOut, rfl⟩

/-- Witness for C4 amended at the initial state. -/
theorem C4_no_heartbeat_not_stale_witness :
    network_kill initial_state 0 = false ∧
    ∃ l, (poll_cycle initial_state 0).serialOut = l ++ [0x20] :=
  C4_no_heartbeat_not_stale initial_state 0 rfl

/-- Claim C5: after a heartbeat stamped T has been observed, network_kill
is false for every now up to T plus the 1-unit timeout and true for every
now beyond it. -/
theorem C5_watchdog_threshold (s : KillIState) (T now : Int) :
    (now ≤ T + timeout → network_kill { s with network_msg := some T } now = false) ∧
    (T + timeout < now → network_kill { s with network_msg := some T } now = true) := by
  constructor <;> intro h <;> simp [network_kill, timeout] at h ⊢ <;> omega

/-- Witness for C5 at T = 0, now = 1 and now = 2. -/
theorem C5_watchdog_threshold_witness :
    network_kill { initial_state with network_msg := some 0 } 1 = false ∧
    network_kill { initial_state with network_msg := some 0 } 2 = true :=
  ⟨(C5_watchdog_threshold initial_state 0 1).1 (by decide),
   (C5_watchdog_threshold initial_state 0 2).2 (by decide)⟩

/-- Claim C6: an inbound byte outside the opcode table 0x10..0x1D is
consumed by check_buffer without throwing and without mutating any field
of the per-source kill map. -/
theorem C6_unknown_byte_no_mutation (s : KillIState) (b : Nat) (rest : List Nat)
    (h : ¬ (0x10 ≤ b ∧ b ≤ 0x1d)) :
    (check_buffer { s with serialIn := b :: rest }).kill_status = s.kill_status ∧
    (check_buffer { s with serialIn := b :: rest }).serialIn = rest := by
  have h1 : lookup_op true_kill b = none := by
    refine lookup_op_none _ _ ?_
    intro p hp
    simp [true_kill] at hp
    rcases hp with h2 | h2 | h2 | h2 | h2 | h2 | h2 <;> subst h2 <;> simp <;> omega
  have h2 : lookup_op false_kill b = none := by
    refine lookup_op_none _ _ ?_
    intro p hp
    simp [false_kill] at hp
    rcases hp with h2 | h2 | h2 | h2 | h2 | h2 | h2 <;> subst h2 <;> simp <;> omega
  unfold check_buffer
  simp [h1, h2]

/-- Witness for C6 at the unknown byte 0x99. -/
theorem C6_unknown_byte_no_mutation_witness :
    (check_buffer { initial_state with serialIn := [0x99] }).kill_status
      = initial_state.kill_status ∧
    (check_buffer { initial_state with serialIn := [0x99] }).serialIn = [] :=
  C6_unknown_byte_no_mutation initial_state 0x99 [] (by decide)

/-- Claim C7: alarm_kill_cb ignores a raise originating from this node,
writes 0x45 for a raise with a foreign originator, and writes 0x46 for a
clear regardless of originator. -/
theorem C7_alarm_bridge (s : KillIState) (a : Alarm) :
    (a.node_name = node_name → a.clear = false → alarm_kill_cb s a = s) ∧
    (a.node_name ≠ node_name → a.clear = false →
      (alarm_kill_cb s a).serialOut = s.serialOut ++ [0x45]) ∧
    (a.clear = true → (alarm_kill_cb s a).serialOut = s.serialOut ++ [0x46]) := by
  unfold alarm_kill_cb request
  refine ⟨fun h1 h2 => ?_, fun h1 h2 => ?_, fun h1 => ?_⟩ <;> split_ifs <;> simp_all

/-- Witness for C7: a self raise, a foreign raise, and a clear, all at the
initial state. -/
theorem C7_alarm_bridge_witness :
    (alarm_kill_cb initial_state { node_name := "/kill_interface", clear := false }
      = initial_state) ∧
    (alarm_kill_cb initial_state { node_name := "/other", clear := false }).serialOut
      = initial_state.serialOut ++ [0x45] ∧
    (alarm_kill_cb initial_state { node_name := "/other", clear := true }).serialOut
      = initial_state.serialOut ++ [0x46] :=
  ⟨(C7_alarm_bridge initial_state { node_name := "/kill_interface", clear := false }).1 rfl rfl,
   (C7_alarm_bridge initial_state { node_name := "/other", clear := false }).2.1 (by decide) rfl,
   (C7_alarm_bridge initial_state { node_name := "/other", clear := true }).2.2 rfl⟩

/-- Claim C8: control_check logs exactly one (command, expected ack) pair,
given by the spec mapping for the cached mode string; the command is
resent when control_check runs again with the mode unchanged, and every
poll cycle sends it. -/
theorem C8_control_mode_mapping (s : KillIState) (now : Int) :
    ((control_check s).requests = s.requests ++
      [((spec_mode_cmd s.current_wrencher).1, some (spec_mode_cmd s.current_wrencher).2)]) ∧
    ((control_check (control_check s)).requests = s.requests ++
      [((spec_mode_cmd s.current_wrencher).1, some (spec_mode_cmd s.current_wrencher).2),
       ((spec_mode_cmd s.current_wrencher).1, some (spec_mode_cmd s.current_wrencher).2)]) ∧
    (∃ l, (poll_cycle s now).requests = s.requests ++
      [((spec_mode_cmd s.current_wrencher).1, some (spec_mode_cmd s.current_wrencher).2)] ++ l) := by
  refine ⟨?_, ?_, ?_⟩
  · rw [control_check_spec]
  · rw [control_check_spec, control_check_spec]
    simp
  · unfold poll_cycle
    dsimp only
    have h1 := get_status_frame s
    have h2 : (control_check (get_status s)).requests = s.requests ++
        [((spec_mode_cmd s.current_wrencher).1, some (spec_mode_cmd s.current_wrencher).2)] := by
      rw [control_check_spec]
      dsimp only
      rw [h1.2.2.2.1, h1.2.2.2.2.2]
    have h3 := drainN_frame (control_check (get_status s)).serialIn.length
        (control_check (get_status s))
    split
    · refine ⟨[(0x20, none)], ?_⟩
      show (request _ 0x20 none).1.requests = _
      rw [request_spec]
      dsimp only
      rw [h3.2.1, h2]
    · exact ⟨[], by rw [h3.2.1, h2]; simp⟩

/-- Claim C9: request writes its argument to the transport and returns
True unconditionally; it reads nothing from the inbound side (lines
117-134 are dead code after the return on line 116) and never returns
False. -/
theorem C9_request_short_circuit (s : KillIState) (w : Nat) (r : Option Nat) :
    (request s w r).2 = true ∧
    (request s w r).1.serialOut = s.serialOut ++ [w] ∧
    (request s w r).1.serialIn = s.serialIn ∧
    (request s w r).1 = { s with serialOut := s.serialOut ++ [w],
                                 requests := s.requests ++ [(w, r)] } :=
  ⟨rfl, rfl, rfl, rfl⟩

/-- Claim C10: get_status leaves the per-source kill map unchanged, as do
request, control_check, alarm_kill_cb and ping; construction initializes
all seven sources to false, so only check_buffer ever writes
kill_status. -/
theorem C10_kill_map_frame (s : KillIState) (w : Nat) (r : Option Nat) (a : Alarm) :
    (get_status s).kill_status = s.kill_status ∧
    ((request s w r).1).kill_status = s.kill_status ∧
    (control_check s).kill_status = s.kill_status ∧
    (alarm_kill_cb s a).kill_status = s.kill_status ∧
    (ping s).kill_status = s.kill_status ∧
    initial_state.kill_status =
      { overall := false, PF := false, PA := false, SF := false,
        SA := false, computer := false, remote := false } := by
  refine ⟨(get_status_frame s).1, rfl, ?_, ?_, rfl, rfl⟩
  · rw [control_check_spec]
  · unfold alarm_kill_cb request
    split_ifs <;> rfl

end KillBoard
